import Mathlib

/-!
Shallow embedding of `trackman_utils.py` (Recs-for-Rays): rate aggregators,
percentile ranker, per-pitch-type putaway/whiff helpers, wOBA lookups and the
height-band frequency normalization of the segmentation report.

Conventions of the embedding:
* A Python `float` result is an `FVal`: a finite rational, a signed infinity,
  or the not-a-number sentinel (`FVal.nan`).
* Functions that can raise (ZeroDivisionError on `int / int` with a zero
  denominator, IndexError on an out-of-bounds positional read, KeyError on a
  missing dict key) return `Except Unit _`, with `.error ()` the raised fault.
* Dataframes are lists of structured rows; `groupby`/`value_counts` results
  (dict of dicts, series indexed by label) are association lists.
-/

namespace RecsForRays

/-- Result of a Python float computation: finite rational, signed infinity,
or the not-a-number sentinel. -/
inductive FVal where
  | nan : FVal
  | inf : FVal
  | ninf : FVal
  | val : ℚ → FVal
deriving DecidableEq

/-- Python true division of two (here always nonnegative) machine integers
(`a / b`): raises ZeroDivisionError when the denominator is zero, else the
exact quotient. -/
def intDiv (a b : ℕ) : Except Unit ℚ :=
  if b = 0 then .error () else .ok ((a : ℚ) / (b : ℚ))

/-- IEEE / numpy float division of exactly-represented values: a zero
denominator gives NaN for `0/0` and a signed infinity otherwise, never an
exception. -/
def floatDiv (a b : ℚ) : FVal :=
  if b = 0 then
    if a = 0 then .nan else if 0 < a then .inf else .ninf
  else .val (a / b)

/-- One Statcast (public feed) event row: the dataframe fields read by
`agg_statcast_pitchers` and `parse_whiff_statcast`. -/
structure Event where
  description : String
  events : String
  strikes : ℕ
  pitch_type : String
  woba_value : ℚ
  woba_denom : ℚ
deriving DecidableEq

/-- `appearances` in `agg_statcast_pitchers`: rows whose `description` is
hit-by-pitch or one of the three ball-in-play variants, or whose `events`
field is strikeout or walk. -/
def appearances (pitcher : List Event) : ℕ :=
  (pitcher.filter (fun r =>
    ["hit_by_pitch", "hit_into_play", "hit_into_play_no_out",
      "hit_into_play_score"].contains r.description
    || ["strikeout", "walk"].contains r.events)).length

/-- The five-field series returned by `agg_statcast_pitchers`. -/
structure Stats where
  putaway_rate : FVal
  whiff_rate : FVal
  k_rate : FVal
  bb_rate : FVal
  woba : FVal
deriving DecidableEq

/-- `agg_statcast_pitchers(pitcher, min_batters_faced)`: below the appearance
threshold every field is NaN; otherwise the putaway, whiff, strikeout and walk
rates are unguarded Python int divisions (raising on a zero denominator, in
source order), and `woba` is a pandas float division of the two column sums. -/
def agg_statcast_pitchers (pitcher : List Event) (min_batters_faced : ℕ) :
    Except Unit Stats :=
  if appearances pitcher < min_batters_faced then
    .ok ⟨.nan, .nan, .nan, .nan, .nan⟩
  else do
    let pitcher_2str := pitcher.filter (fun r => r.strikes == 2)
    let putaways := (pitcher_2str.filter (fun r =>
      ["swinging_strike", "swinging_strike_blocked",
        "called_strike"].contains r.description)).length
    let putaway_rate ← intDiv putaways pitcher_2str.length
    let whiffs := (pitcher.filter (fun r =>
      ["swinging_strike", "swinging_strike_blocked"].contains r.description)).length
    let swings := (pitcher.filter (fun r =>
      ["swinging_strike", "swinging_strike_blocked", "hit_into_play",
        "hit_into_play_no_out", "hit_into_play_score", "foul_tip", "foul",
        "foul_bunt"].contains r.description)).length
    let whiff_rate ← intDiv whiffs swings
    let strikeouts := (pitcher.filter (fun r => r.events == "strikeout")).length
    let k_rate ← intDiv strikeouts (appearances pitcher)
    let walks := (pitcher.filter (fun r => r.events == "walk")).length
    let bb_rate ← intDiv walks (appearances pitcher)
    let woba := floatDiv ((pitcher.map Event.woba_value).sum)
      ((pitcher.map Event.woba_denom).sum)
    .ok ⟨.val putaway_rate, .val whiff_rate, .val k_rate, .val bb_rate, woba⟩

/-- The scan loop of `percentile`: advance the cursor while the input exceeds
the entry at the cursor.  Reading past the last entry (`sorted.iloc[i]` with
`i = len`) raises IndexError, modelled as `.error ()`. -/
def scanAbove (v : ℚ) : List ℚ → Except Unit ℕ
  | [] => .error ()
  | x :: xs =>
    if v > x then
      match scanAbove v xs with
      | .ok i => .ok (i + 1)
      | .error e => .error e
    else .ok 0

/-- Ascending insertion of one value into a sorted list. -/
def insertAsc (x : ℚ) : List ℚ → List ℚ
  | [] => [x]
  | y :: ys => if x ≤ y then x :: y :: ys else y :: insertAsc x ys

/-- Ascending sort; `sort_values(stat, ascending=True)` leaves the statistic
column of the population exactly in this order. -/
def sortAsc : List ℚ → List ℚ
  | [] => []
  | x :: xs => insertAsc x (sortAsc xs)

/-- `percentile(val, stats_by_pitcher, stat)`: sort the population ascending by
the named statistic, run the unguarded scan over the sorted statistic column,
and divide the final cursor by the population size. -/
def percentile {α : Type} (v : ℚ) (stats_by_pitcher : List α) (stat : α → ℚ) :
    Except Unit ℚ :=
  match scanAbove v (sortAsc (stats_by_pitcher.map stat)) with
  | .ok i => .ok ((i : ℚ) / (stats_by_pitcher.length : ℚ))
  | .error e => .error e

/-- One proprietary-feed (TrackMan) pitch row: the dataframe fields read by
`compute_putaway` and `whiff_by_height`. -/
structure TEvent where
  tagged_pitch_type : String
  pitch_call : String
  plate_loc_height : ℚ
  plate_loc_side : ℚ
deriving DecidableEq

/-- Sum of the counts of an outcome sub-mapping over the outcomes satisfying
the predicate (one pass of the `for row in ...index` loops). -/
def sumCounts (sub : List (String × ℕ)) (p : String → Bool) : ℕ :=
  ((sub.filter (fun kv => p kv.1)).map (fun kv => kv.2)).sum

/-- `compute_putaway(df, calls_by_pitch)`: over the set of pitch types tagged
in `df`, accumulate the two-strike-ending count (StrikeSwinging, StrikeCalled)
and the total count from `calls_by_pitch`, skipping pitch types absent from
the mapping; the final division is an unguarded int division. -/
def compute_putaway (df : List TEvent)
    (calls_by_pitch : List (String × List (String × ℕ))) : Except Unit ℚ :=
  let pitches := (df.map TEvent.tagged_pitch_type).dedup
  let total_k := (pitches.map (fun pitch =>
    match calls_by_pitch.lookup pitch with
    | some sub => sumCounts sub
        (fun o => o == "StrikeSwinging" || o == "StrikeCalled")
    | none => 0)).sum
  let total := (pitches.map (fun pitch =>
    match calls_by_pitch.lookup pitch with
    | some sub => sumCounts sub (fun _ => true)
    | none => 0)).sum
  intDiv total_k total

/-- The two outcome fields of an event row read by the wOBA lookups. -/
structure WRow where
  play_result : String
  k_or_bb : String
deriving DecidableEq

/-- `parse_woba(row, weights)`: prefer the batted-ball `play_result` when
defined, else the `k_or_bb` label when defined, else NaN; a dict lookup on a
missing key raises KeyError (`.error ()`). -/
def parse_woba (row : WRow) (weights : List (String × ℚ)) : Except Unit FVal :=
  if row.play_result ≠ "Undefined" then
    match weights.lookup row.play_result with
    | some w => .ok (.val w)
    | none => .error ()
  else if row.k_or_bb ≠ "Undefined" then
    match weights.lookup row.k_or_bb with
    | some w => .ok (.val w)
    | none => .error ()
  else .ok .nan

/-- `parse_woba_denom(row, denoms)`: same resolution order as `parse_woba`
but the no-outcome default is the integer 0, not NaN. -/
def parse_woba_denom (row : WRow) (denoms : List (String × ℚ)) :
    Except Unit FVal :=
  if row.play_result ≠ "Undefined" then
    match denoms.lookup row.play_result with
    | some d => .ok (.val d)
    | none => .error ()
  else if row.k_or_bb ≠ "Undefined" then
    match denoms.lookup row.k_or_bb with
    | some d => .ok (.val d)
    | none => .error ()
  else .ok (.val 0)

/-- `parse_whiff(row, calls_by_pitch)` (proprietary feed): whiffs are the
StrikeSwinging count; swings add FoulBall and InPlay counts; zero swings or an
absent pitch type give NaN. -/
def parse_whiff (name : String)
    (calls_by_pitch : List (String × List (String × ℕ))) : FVal :=
  match calls_by_pitch.lookup name with
  | none => .nan
  | some sub =>
    let whiffs := (sub.lookup "StrikeSwinging").getD 0
    let swings := whiffs + (sub.lookup "FoulBall").getD 0
      + (sub.lookup "InPlay").getD 0
    if 0 < swings then .val ((whiffs : ℚ) / (swings : ℚ)) else .nan

/-- `parse_whiff_statcast(row, all_stats)` (public feed): restrict to the
pitch type, count the two swinging-strike descriptions as whiffs, add the
in-play and foul descriptions for swings, NaN on zero swings. -/
def parse_whiff_statcast (name : String) (all_stats : List Event) : FVal :=
  let all_stats_pitch := all_stats.filter (fun r => r.pitch_type == name)
  let whiffs := (all_stats_pitch.filter (fun r =>
    ["swinging_strike", "swinging_strike_blocked"].contains r.description)).length
  let swings := (all_stats_pitch.filter (fun r =>
    ["swinging_strike", "swinging_strike_blocked", "hit_into_play",
      "hit_into_play_no_out", "hit_into_play_score", "foul_tip", "foul",
      "foul_bunt"].contains r.description)).length
  if swings = 0 then .nan
  else .val ((whiffs : ℚ) / (swings : ℚ))

/-- `parse_putaway(row, calls_by_pitch, statcast)`: absent pitch type gives
NaN; otherwise sum the two-strike-ending counts for the feed's vocabulary
(`statcast = false`: StrikeSwinging, StrikeCalled; `statcast = true`:
swinging_strike, swinging_strike_blocked, called_strike) over the total count;
the division is an unguarded int division. -/
def parse_putaway (name : String)
    (calls_by_pitch : List (String × List (String × ℕ))) (statcast : Bool) :
    Except Unit FVal :=
  match calls_by_pitch.lookup name with
  | none => .ok .nan
  | some sub =>
    let total_k := sumCounts sub (fun outcome =>
      if !statcast then outcome == "StrikeSwinging" || outcome == "StrikeCalled"
      else ["swinging_strike", "swinging_strike_blocked",
        "called_strike"].contains outcome)
    let total := sumCounts sub (fun _ => true)
    if total = 0 then .error ()
    else .ok (.val ((total_k : ℚ) / (total : ℚ)))

/-- One bucket of `whiff_by_height`: rows of the given pitch type whose plate
height lies in the half-open band `(low, high]`. -/
def bucketCount (df : List TEvent) (pitch : String) (band : ℚ × ℚ) : ℕ :=
  (df.filter (fun r => r.tagged_pitch_type == pitch
    && decide (band.1 < r.plate_loc_height)
    && decide (r.plate_loc_height ≤ band.2))).length

/-- Total raw bucket count for one pitch type over the supplied height bands
(the `freqs` dict keys collapse duplicate bands). -/
def heightTotal (df : List TEvent) (pitch : String) (heights : List (ℚ × ℚ)) :
    ℕ :=
  (heights.dedup.map (fun h => bucketCount df pitch h)).sum

/-- The normalized frequency mapping `whiff_by_height` reports for one pitch
type: each raw bucket count divided by the total over all bands. -/
def heightFreqs (df : List TEvent) (pitch : String)
    (heights : List (ℚ × ℚ)) : List ((ℚ × ℚ) × ℚ) :=
  heights.dedup.map (fun h =>
    (h, (bucketCount df pitch h : ℚ) / (heightTotal df pitch heights : ℚ)))

/-- Claim-side count, following the spec sentence for the proprietary-feed
whiff aggregator: whiff count is the swinging variants only (the feed's single
`StrikeSwinging` label), restricted to one pitch type. -/
def specWhiffCountTm (name : String)
    (calls_by_pitch : List (String × List (String × ℕ))) : ℕ :=
  match calls_by_pitch.lookup name with
  | none => 0
  | some sub => (sub.lookup "StrikeSwinging").getD 0

/-- Claim-side count: swing count is swinging variants plus fouls plus
in-play, restricted to one pitch type. -/
def specSwingCountTm (name : String)
    (calls_by_pitch : List (String × List (String × ℕ))) : ℕ :=
  match calls_by_pitch.lookup name with
  | none => 0
  | some sub => (sub.lookup "StrikeSwinging").getD 0
      + (sub.lookup "FoulBall").getD 0 + (sub.lookup "InPlay").getD 0

/-- Claim-side count, public feed: rows of the pitch type whose description is
one of the two swinging variants. -/
def specWhiffCountSc (name : String) (all_stats : List Event) : ℕ :=
  (all_stats.filter (fun r => r.pitch_type == name
    && ["swinging_strike", "swinging_strike_blocked"].contains r.description)).length

/-- Claim-side count, public feed: rows of the pitch type whose description is
a swinging variant, a foul variant, or an in-play variant. -/
def specSwingCountSc (name : String) (all_stats : List Event) : ℕ :=
  (all_stats.filter (fun r => r.pitch_type == name
    && ["swinging_strike", "swinging_strike_blocked", "hit_into_play",
      "hit_into_play_no_out", "hit_into_play_score", "foul_tip", "foul",
      "foul_bunt"].contains r.description)).length

/-- Helper: filtering twice counts the same rows as filtering once with the
conjunction of the predicates. -/
theorem length_filter_filter {α : Type} (p q : α → Bool) (l : List α) :
    ((l.filter p).filter q).length = (l.filter (fun a => p a && q a)).length := by
  have hcomm : (fun a => q a && p a) = (fun a => p a && q a) := by
    funext a
    exact Bool.and_comm (q a) (p a)
  rw [List.filter_filter, hcomm]

/-- Helper: the scan cursor of `percentile` is monotone in the input value. -/
theorem scanAbove_mono (v₁ v₂ : ℚ) (l : List ℚ) (i₁ i₂ : ℕ) (hv : v₁ ≤ v₂)
    (h₁ : scanAbove v₁ l = .ok i₁) (h₂ : scanAbove v₂ l = .ok i₂) :
    i₁ ≤ i₂ := by
  induction l generalizing i₁ i₂ with
  | nil => simp [scanAbove] at h₁
  | cons x xs ih =>
    simp only [scanAbove] at h₁ h₂
    by_cases h2x : v₂ > x
    · rw [if_pos h2x] at h₂
      by_cases h1x : v₁ > x
      · rw [if_pos h1x] at h₁
        cases e1 : scanAbove v₁ xs with
        | error e => rw [e1] at h₁; cases h₁
        | ok j₁ =>
          cases e2 : scanAbove v₂ xs with
          | error e => rw [e2] at h₂; cases h₂
          | ok j₂ =>
            rw [e1] at h₁
            rw [e2] at h₂
            injection h₁ with h₁
            injection h₂ with h₂
            subst h₁
            subst h₂
            exact Nat.succ_le_succ (ih j₁ j₂ e1 e2)
      · rw [if_neg h1x] at h₁
        injection h₁ with h₁
        subst h₁
        exact Nat.zero_le _
    · rw [if_neg h2x] at h₂
      have h1x : ¬ v₁ > x := fun hgt => h2x (lt_of_lt_of_le hgt hv)
      rw [if_neg h1x] at h₁
      injection h₁ with h₁
      injection h₂ with h₂
      subst h₁
      subst h₂
      exact le_refl 0

/-- Helper: dividing each mapped value by a constant divides the sum. -/
theorem sum_map_div {α : Type} (l : List α) (f : α → ℚ) (c : ℚ) :
    (l.map (fun x => f x / c)).sum = (l.map f).sum / c := by
  induction l with
  | nil => simp
  | cons x xs ih => simp [ih, add_div]

/-- C1: the spec requires every zero-denominator ratio in the core to surface
as the NaN sentinel, never as a raised error; but on an event table with one
appearance (meeting threshold 1) and no two-strike pitch, the unguarded int
division `putaways/len(pitcher_2str)` raises ZeroDivisionError. -/
theorem agg_putaway_zero_denominator_raises :
    ¬ appearances [⟨"hit_by_pitch", "", 0, "FF", 0, 0⟩] < 1 ∧
      agg_statcast_pitchers [⟨"hit_by_pitch", "", 0, "FF", 0, 0⟩] 1
        = .error () :=
  ⟨by decide, by rfl⟩

/-- C2: the spec requires the percentile ranker to return 1.0 for a value
above the whole population; the unguarded scan instead reads past the end of
the sorted population and raises IndexError (value 1 over population [1/2]). -/
theorem percentile_above_population_raises :
    percentile 1 [((1 : ℚ)/2)] (fun q => q) = .error () := by
  norm_num [percentile, sortAsc, insertAsc, scanAbove]

/-- C3: whenever the appearance count is strictly below the threshold, the
rate aggregator returns NaN for all five fields and raises nothing. -/
theorem agg_below_threshold_all_nan (pitcher : List Event)
    (min_batters_faced : ℕ)
    (h : appearances pitcher < min_batters_faced) :
    agg_statcast_pitchers pitcher min_batters_faced =
      .ok ⟨.nan, .nan, .nan, .nan, .nan⟩ := by
  unfold agg_statcast_pitchers
  rw [if_pos h]

theorem agg_below_threshold_all_nan_witness :
    appearances [] < 1 ∧
      agg_statcast_pitchers [] 1 = .ok ⟨.nan, .nan, .nan, .nan, .nan⟩ :=
  ⟨by decide, agg_below_threshold_all_nan [] 1 (by decide)⟩

/-- C4: the wOBA lookups prefer a defined batted-ball play result, fall back
to a defined strikeout/walk label, and default to NaN (weight) versus 0
(denominator) when neither is defined. -/
theorem woba_lookup_resolution (row : WRow) (weights denoms : List (String × ℚ))
    (w d : ℚ) :
    (row.play_result ≠ "Undefined" →
      weights.lookup row.play_result = some w →
      denoms.lookup row.play_result = some d →
      parse_woba row weights = .ok (.val w) ∧
        parse_woba_denom row denoms = .ok (.val d)) ∧
    (row.play_result = "Undefined" → row.k_or_bb ≠ "Undefined" →
      weights.lookup row.k_or_bb = some w →
      denoms.lookup row.k_or_bb = some d →
      parse_woba row weights = .ok (.val w) ∧
        parse_woba_denom row denoms = .ok (.val d)) ∧
    (row.play_result = "Undefined" → row.k_or_bb = "Undefined" →
      parse_woba row weights = .ok .nan ∧
        parse_woba_denom row denoms = .ok (.val 0)) := by
  refine ⟨fun h hw hd => ?_, fun h hk hw hd => ?_, fun h hk => ?_⟩
  · constructor <;> simp [parse_woba, parse_woba_denom, h, hw, hd]
  · constructor <;> simp [parse_woba, parse_woba_denom, h, hk, hw, hd]
  · constructor <;> simp [parse_woba, parse_woba_denom, h, hk]

theorem woba_lookup_resolution_witness :
    parse_woba ⟨"Single", "Undefined"⟩ [("Single", 9/10)] =
        .ok (.val (9/10)) ∧
      parse_woba_denom ⟨"Single", "Undefined"⟩ [("Single", 1)] =
        .ok (.val 1) :=
  (woba_lookup_resolution ⟨"Single", "Undefined"⟩ [("Single", 9/10)]
    [("Single", 1)] (9/10) 1).1 (by decide) rfl rfl

/-- C5 counterexample: on the example counts, `parse_putaway` invoked with the
public-feed vocabulary (`statcast = true`) returns 0, not the claimed 0.5 —
the example's outcome labels belong to the proprietary feed. -/
theorem parse_putaway_public_feed_example_not_half :
    parse_putaway "Fastball" [("Fastball", [("StrikeSwinging", 3),
      ("StrikeCalled", 2), ("BallCalled", 5)])] true = .ok (.val 0) ∧
    (Except.ok (FVal.val 0) : Except Unit FVal) ≠ .ok (.val (1/2)) := by
  constructor
  · simp +decide [parse_putaway, sumCounts, List.lookup]
  · intro hcontra
    injection hcontra with h1
    injection h1 with h2
    norm_num at h2

/-- C5 amended: on the example counts `parse_putaway` for "Fastball" with the
proprietary-feed vocabulary (`statcast = false`) returns 5/10 = 0.5. -/
theorem parse_putaway_proprietary_feed_example_half :
    parse_putaway "Fastball" [("Fastball", [("StrikeSwinging", 3),
      ("StrikeCalled", 2), ("BallCalled", 5)])] false = .ok (.val (1/2)) := by
  simp +decide [parse_putaway, sumCounts, List.lookup]
  norm_num

/-- C6: a pitch type absent from the outcome-count mapping makes
`parse_putaway` return the NaN sentinel for either feed flag, not an error. -/
theorem parse_putaway_absent_pitch_nan (name : String)
    (calls_by_pitch : List (String × List (String × ℕ))) (statcast : Bool)
    (h : calls_by_pitch.lookup name = none) :
    parse_putaway name calls_by_pitch statcast = .ok .nan := by
  unfold parse_putaway
  rw [h]

theorem parse_putaway_absent_pitch_nan_witness :
    List.lookup "Fastball" ([] : List (String × List (String × ℕ)))
        = none ∧
      parse_putaway "Fastball" [] true = .ok .nan :=
  ⟨rfl, parse_putaway_absent_pitch_nan "Fastball" [] true rfl⟩

/-- C7: both per-pitch-type whiff aggregators return whiff count (swinging
variants only) over swing count (swinging variants plus fouls plus in-play),
with NaN when the swing count is zero. -/
theorem whiff_aggregators_ratio (name : String)
    (calls_by_pitch : List (String × List (String × ℕ)))
    (all_stats : List Event) :
    parse_whiff name calls_by_pitch =
      (if specSwingCountTm name calls_by_pitch = 0 then .nan
        else .val ((specWhiffCountTm name calls_by_pitch : ℚ) /
          (specSwingCountTm name calls_by_pitch : ℚ))) ∧
    parse_whiff_statcast name all_stats =
      (if specSwingCountSc name all_stats = 0 then .nan
        else .val ((specWhiffCountSc name all_stats : ℚ) /
          (specSwingCountSc name all_stats : ℚ))) := by
  constructor
  · unfold parse_whiff specWhiffCountTm specSwingCountTm
    cases hlk : calls_by_pitch.lookup name with
    | none => rfl
    | some sub =>
      simp only []
      rcases Nat.eq_zero_or_pos ((sub.lookup "StrikeSwinging").getD 0
        + (sub.lookup "FoulBall").getD 0 + (sub.lookup "InPlay").getD 0)
        with hz | hp
      · rw [if_neg (by omega), if_pos hz]
      · rw [if_pos hp, if_neg (by omega)]
  · unfold parse_whiff_statcast specWhiffCountSc specSwingCountSc
    simp only [length_filter_filter]

/-- C8: for a fixed population and statistic, the percentile ranker is
monotonically non-decreasing in the input value wherever it is defined. -/
theorem percentile_monotone {α : Type} (v₁ v₂ : ℚ) (rows : List α)
    (stat : α → ℚ) (q₁ q₂ : ℚ) (hv : v₁ ≤ v₂)
    (h₁ : percentile v₁ rows stat = .ok q₁)
    (h₂ : percentile v₂ rows stat = .ok q₂) : q₁ ≤ q₂ := by
  unfold percentile at h₁ h₂
  cases e1 : scanAbove v₁ (sortAsc (rows.map stat)) with
  | error e => rw [e1] at h₁; cases h₁
  | ok i₁ =>
    cases e2 : scanAbove v₂ (sortAsc (rows.map stat)) with
    | error e => rw [e2] at h₂; cases h₂
    | ok i₂ =>
      rw [e1] at h₁
      rw [e2] at h₂
      injection h₁ with h₁
      injection h₂ with h₂
      subst h₁
      subst h₂
      have hne : rows ≠ [] := by
        intro h0
        subst h0
        simp [sortAsc, scanAbove] at e1
      have hlen : (0 : ℚ) < (rows.length : ℚ) := by
        exact_mod_cast List.length_pos.mpr hne
      have hle : i₁ ≤ i₂ := scanAbove_mono v₁ v₂ _ i₁ i₂ hv e1 e2
      exact (div_le_div_iff_of_pos_right hlen).mpr (by exact_mod_cast hle)

theorem percentile_monotone_witness :
    percentile 0 [(1 : ℚ)] (fun q => q) = .ok 0 ∧
      percentile 1 [(1 : ℚ)] (fun q => q) = .ok 0 ∧ (0 : ℚ) ≤ 0 :=
  ⟨by norm_num [percentile, sortAsc, insertAsc, scanAbove],
    by norm_num [percentile, sortAsc, insertAsc, scanAbove],
    percentile_monotone 0 1 [(1 : ℚ)] (fun q => q) 0 0 (by norm_num)
      (by norm_num [percentile, sortAsc, insertAsc, scanAbove])
      (by norm_num [percentile, sortAsc, insertAsc, scanAbove])⟩

/-- C9: for any pitch type whose total bucket count over the supplied height
bands is positive, the normalized height-band frequencies sum to 1. -/
theorem height_freqs_sum_one (df : List TEvent) (pitch : String)
    (heights : List (ℚ × ℚ)) (h : 0 < heightTotal df pitch heights) :
    ((heightFreqs df pitch heights).map Prod.snd).sum = 1 := by
  have hne : (heightTotal df pitch heights : ℚ) ≠ 0 := by
    exact_mod_cast Nat.pos_iff_ne_zero.mp h
  unfold heightFreqs
  rw [List.map_map]
  have hcomp : (Prod.snd ∘ fun hb : ℚ × ℚ => (hb,
      (bucketCount df pitch hb : ℚ) / (heightTotal df pitch heights : ℚ)))
      = fun hb => (bucketCount df pitch hb : ℚ) /
        (heightTotal df pitch heights : ℚ) := rfl
  rw [hcomp, sum_map_div, div_eq_one_iff_eq hne]
  unfold heightTotal
  rw [Nat.cast_list_sum, List.map_map]
  rfl

theorem height_freqs_sum_one_witness :
    0 < heightTotal [⟨"FF", "InPlay", 2, 0⟩] "FF" [(1, 3)] ∧
      ((heightFreqs [⟨"FF", "InPlay", 2, 0⟩] "FF" [(1, 3)]).map
        Prod.snd).sum = 1 :=
  ⟨by norm_num [heightTotal, bucketCount, List.dedup],
    height_freqs_sum_one _ _ _
      (by norm_num [heightTotal, bucketCount, List.dedup])⟩

/-- C10: whenever no pitch-type label of the event table is a key of the
outcome-count mapping, the accumulated total of `compute_putaway` stays 0 and
the unguarded final division raises ZeroDivisionError. -/
theorem compute_putaway_no_matching_pitch_raises (df : List TEvent)
    (calls_by_pitch : List (String × List (String × ℕ)))
    (h : ∀ p ∈ df.map TEvent.tagged_pitch_type,
      calls_by_pitch.lookup p = none) :
    compute_putaway df calls_by_pitch = .error () := by
  have htotal : ((df.map TEvent.tagged_pitch_type).dedup.map (fun pitch =>
      match calls_by_pitch.lookup pitch with
      | some sub => sumCounts sub (fun _ => true)
      | none => 0)).sum = 0 := by
    apply List.sum_eq_zero
    intro x hx
    rcases List.mem_map.mp hx with ⟨p, hp, rfl⟩
    rw [h p (List.mem_dedup.mp hp)]
  simp [compute_putaway, intDiv, htotal]

theorem compute_putaway_no_matching_pitch_raises_witness :
    compute_putaway [⟨"FB", "InPlay", 2, 0⟩] [] = .error () :=
  compute_putaway_no_matching_pitch_raises [⟨"FB", "InPlay", 2, 0⟩] []
    (fun _ _ => rfl)

end RecsForRays
